import Mathlib

/-!
Shallow embedding of the ScholaChain smart contracts
(`ScholaChainGovernance` and `ScholaChain` in
`blockchain-smart-contracts/hardhat.config.ts`).

Modelling conventions:
* Ethereum addresses are `Nat`; `0` is the zero address.
* A Solidity `mapping` is an association list `List (Nat × β)` read through
  `mget` (first binding wins, default value for absent keys) and written
  through `mset` (replaces the first binding, appends when absent).  This
  matches `mapping` semantics because `mset` never creates a duplicate key
  ahead of an existing one.
* `uint256` values are `Nat`.  Solidity 0.8 checked arithmetic reverts on
  underflow, so every `x--` in the source is modelled by an explicit
  `= 0` guard returning an `Underflow` error; increments cannot reach
  `2^256` in any behaviour relevant here and are modelled as plain `+ 1`.
* A reverting call is an `Except` error carrying the error kind named by
  the spec's error taxonomy for the corresponding `require` message; the
  pre-state is untouched by construction (no partial effects).
* `block.timestamp` is an explicit `Nat` argument where the source reads it.
* `keccak256(bytes a) == keccak256(bytes b)` in `verifyCertificate` is
  modelled as string equality (keccak is collision resistant).
* `bytes(s).length` is `String.utf8ByteSize` (UTF-8 byte length).
-/

/-- Read a Solidity-style mapping: value of the first binding of key `k`,
or the default `d` when `k` is absent. -/
def mget {β : Type} (m : List (Nat × β)) (d : β) (k : Nat) : β :=
  match m with
  | [] => d
  | (a, v) :: rest => if k = a then v else mget rest d k

/-- Write a Solidity-style mapping: replace the first binding of key `k`,
or append a new binding when `k` is absent. -/
def mset {β : Type} (m : List (Nat × β)) (k : Nat) (v : β) : List (Nat × β) :=
  match m with
  | [] => [(k, v)]
  | (a, w) :: rest => if k = a then (k, v) :: rest else (a, w) :: mset rest k v

/-- Decidable equality for `Except`, so that concrete call results can be
checked by `decide`. -/
instance {ε α : Type} [DecidableEq ε] [DecidableEq α] : DecidableEq (Except ε α)
  | .error e, .error f =>
    if h : e = f then .isTrue (by rw [h])
    else .isFalse (fun k => Except.noConfusion k (fun he => h he))
  | .error _, .ok _ => .isFalse (fun k => Except.noConfusion k)
  | .ok _, .error _ => .isFalse (fun k => Except.noConfusion k)
  | .ok a, .ok b =>
    if h : a = b then .isTrue (by rw [h])
    else .isFalse (fun k => Except.noConfusion k (fun he => h he))

/-- Roles of `ScholaChainGovernance.Role`. -/
inductive Role : Type
  | NONE
  | ISSUER
  | SUPER_ADMIN
deriving DecidableEq, Repr

/-- `ScholaChainGovernance.Institution`. -/
structure Institution : Type where
  name : String
  description : String
  website : String
  isActive : Bool
  registeredAt : Nat
  role : Role
deriving DecidableEq, Repr

/-- Default value of `mapping(address => Institution)` for an address never
written: all-zero struct, `role = NONE`. -/
def defaultInstitution : Institution :=
  { name := "", description := "", website := "", isActive := false
    registeredAt := 0, role := Role.NONE }

/-- Storage of `ScholaChainGovernance`. -/
structure GovState : Type where
  insts : List (Nat × Institution)
  authorized : List (Nat × Bool)
  superAdmin : Nat
  totalInstitutions : Nat
  activeIssuers : Nat
deriving DecidableEq, Repr

/-- `institutions[a]` lookup. -/
def instOf (st : GovState) (a : Nat) : Institution :=
  mget st.insts defaultInstitution a

/-- `authorizedIssuers[a]` lookup. -/
def authOf (st : GovState) (a : Nat) : Bool :=
  mget st.authorized false a

/-- Error kinds for the governance contract's `require` failures, named per
the spec's error taxonomy; `Underflow` is the Solidity 0.8 checked-arithmetic
revert on `activeIssuers--`. -/
inductive GovErr : Type
  | Unauthorized
  | InvalidArgument
  | AlreadyRegistered
  | NotRegistered
  | AlreadyInactive
  | AlreadyActive
  | InvalidRole
  | StatusUnchanged
  | SameAdmin
  | Underflow
deriving DecidableEq, Repr

/-- The `ScholaChainGovernance` constructor: registers the ministry address
as the initial, active `SUPER_ADMIN` (its revert on the zero address is a
hypothesis of reachability). -/
def govInit (ministry ts : Nat) : GovState :=
  { insts := [(ministry,
      { name := "Ministry of Education"
        description := "Governing body for educational certification"
        website := "https://education.gov"
        isActive := true
        registeredAt := ts
        role := Role.SUPER_ADMIN })]
    authorized := []
    superAdmin := ministry
    totalInstitutions := 1
    activeIssuers := 0 }

/-- `registerInstitution` (governance contract). -/
def registerInstitution (st : GovState) (caller a : Nat)
    (nm ds ws : String) (r : Role) (ts : Nat) : Except GovErr GovState :=
  if caller ≠ st.superAdmin then .error .Unauthorized
  else if a = 0 then .error .InvalidArgument
  else if nm = "" then .error .InvalidArgument
  else if (instOf st a).role ≠ Role.NONE then .error .AlreadyRegistered
  else if r = Role.NONE then .error .InvalidArgument
  else .ok
    { st with
      insts := mset st.insts a
        { name := nm, description := ds, website := ws
          isActive := true, registeredAt := ts, role := r }
      totalInstitutions := st.totalInstitutions + 1
      authorized := if r = Role.ISSUER then mset st.authorized a true else st.authorized
      activeIssuers := if r = Role.ISSUER then st.activeIssuers + 1 else st.activeIssuers }

/-- `revokeInstitution` (governance contract). -/
def revokeInstitution (st : GovState) (caller a : Nat) (_reason : String) :
    Except GovErr GovState :=
  if caller ≠ st.superAdmin then .error .Unauthorized
  else if a = 0 then .error .InvalidArgument
  else if (instOf st a).role = Role.NONE then .error .NotRegistered
  else if ¬ (instOf st a).isActive then .error .AlreadyInactive
  else if (instOf st a).role ≠ Role.ISSUER then .error .InvalidRole
  else if st.activeIssuers = 0 then .error .Underflow
  else .ok
    { st with
      insts := mset st.insts a { instOf st a with isActive := false }
      authorized := mset st.authorized a false
      activeIssuers := st.activeIssuers - 1 }

/-- `reactivateInstitution` (governance contract). -/
def reactivateInstitution (st : GovState) (caller a : Nat) :
    Except GovErr GovState :=
  if caller ≠ st.superAdmin then .error .Unauthorized
  else if a = 0 then .error .InvalidArgument
  else if (instOf st a).role = Role.NONE then .error .NotRegistered
  else if (instOf st a).isActive then .error .AlreadyActive
  else if (instOf st a).role ≠ Role.ISSUER then .error .InvalidRole
  else .ok
    { st with
      insts := mset st.insts a { instOf st a with isActive := true }
      authorized := mset st.authorized a true
      activeIssuers := st.activeIssuers + 1 }

/-- `updateInstitutionRole` (governance contract). -/
def updateInstitutionRole (st : GovState) (caller a : Nat) (newRole : Role) :
    Except GovErr GovState :=
  if caller ≠ st.superAdmin then .error .Unauthorized
  else if a = 0 then .error .InvalidArgument
  else if (instOf st a).role = Role.NONE then .error .NotRegistered
  else if newRole = Role.NONE then .error .InvalidArgument
  else
    if (instOf st a).role = Role.ISSUER ∧ newRole ≠ Role.ISSUER then
      if (instOf st a).isActive then
        if st.activeIssuers = 0 then .error .Underflow
        else .ok
          { st with
            insts := mset st.insts a { instOf st a with role := newRole }
            authorized := mset st.authorized a false
            activeIssuers := st.activeIssuers - 1 }
      else .ok
        { st with
          insts := mset st.insts a { instOf st a with role := newRole }
          authorized := mset st.authorized a false }
    else if (instOf st a).role ≠ Role.ISSUER ∧ newRole = Role.ISSUER then
      if (instOf st a).isActive then
        .ok
          { st with
            insts := mset st.insts a { instOf st a with role := newRole }
            authorized := mset st.authorized a true
            activeIssuers := st.activeIssuers + 1 }
      else .ok
        { st with
          insts := mset st.insts a { instOf st a with role := newRole }
          authorized := mset st.authorized a true }
    else .ok { st with insts := mset st.insts a { instOf st a with role := newRole } }

/-- `setInstitutionStatus` (governance contract). -/
def setInstitutionStatus (st : GovState) (caller a : Nat) (b : Bool) :
    Except GovErr GovState :=
  if caller ≠ st.superAdmin then .error .Unauthorized
  else if a = 0 then .error .InvalidArgument
  else if (instOf st a).role = Role.NONE then .error .NotRegistered
  else if (instOf st a).isActive = b then .error .StatusUnchanged
  else
    if (instOf st a).role = Role.ISSUER then
      if b then
        .ok
          { st with
            insts := mset st.insts a { instOf st a with isActive := b }
            authorized := mset st.authorized a true
            activeIssuers := st.activeIssuers + 1 }
      else
        if st.activeIssuers = 0 then .error .Underflow
        else .ok
          { st with
            insts := mset st.insts a { instOf st a with isActive := b }
            authorized := mset st.authorized a false
            activeIssuers := st.activeIssuers - 1 }
    else .ok { st with insts := mset st.insts a { instOf st a with isActive := b } }

/-- `transferSuperAdmin` (governance contract).  Note: it rewrites the two
`authorizedIssuers` flags but never touches the `activeIssuers` counter. -/
def transferSuperAdmin (st : GovState) (caller newAdmin : Nat) :
    Except GovErr GovState :=
  if caller ≠ st.superAdmin then .error .Unauthorized
  else if newAdmin = 0 then .error .InvalidArgument
  else if (instOf st newAdmin).role = Role.NONE then .error .NotRegistered
  else if newAdmin = st.superAdmin then .error .SameAdmin
  else
    let insts1 := mset st.insts st.superAdmin
      { instOf st st.superAdmin with role := Role.ISSUER }
    let insts2 := mset insts1 newAdmin
      { mget insts1 defaultInstitution newAdmin with role := Role.SUPER_ADMIN }
    .ok { st with
          insts := insts2
          authorized := mset (mset st.authorized st.superAdmin true) newAdmin false
          superAdmin := newAdmin }

/-- `canIssueCertificates` (governance view). -/
def canIssueCertificates (st : GovState) (a : Nat) : Bool :=
  authOf st a && (instOf st a).isActive

/-- `isSuperAdmin` (governance view). -/
def isSuperAdmin (st : GovState) (a : Nat) : Bool :=
  ((instOf st a).role == Role.SUPER_ADMIN) && (a == st.superAdmin)

/-- Labels for the governance mutations, used to state reachability. -/
inductive GovOp : Type
  | register (caller a : Nat) (nm ds ws : String) (r : Role) (ts : Nat)
  | revoke (caller a : Nat) (reason : String)
  | reactivate (caller a : Nat)
  | updateRole (caller a : Nat) (r : Role)
  | setStatus (caller a : Nat) (b : Bool)
  | transfer (caller a : Nat)

/-- Dispatch a governance mutation. -/
def govApply (op : GovOp) (st : GovState) : Except GovErr GovState :=
  match op with
  | .register caller a nm ds ws r ts => registerInstitution st caller a nm ds ws r ts
  | .revoke caller a reason => revokeInstitution st caller a reason
  | .reactivate caller a => reactivateInstitution st caller a
  | .updateRole caller a r => updateInstitutionRole st caller a r
  | .setStatus caller a b => setInstitutionStatus st caller a b
  | .transfer caller a => transferSuperAdmin st caller a

/-- A successful governance transition by operation `op`. -/
abbrev GovStepOp (op : GovOp) (st st' : GovState) : Prop :=
  govApply op st = .ok st'

/-- Governance states reachable from the constructor by successful calls
whose operations all satisfy the side condition `P`.  `P := fun _ _ => True`
gives plain reachability. -/
inductive GovReachableSat (P : GovOp → GovState → Prop) : GovState → Prop
  | init (ministry ts : Nat) (h : ministry ≠ 0) :
      GovReachableSat P (govInit ministry ts)
  | step {st st' : GovState} {op : GovOp} :
      GovReachableSat P st → P op st → GovStepOp op st st' →
      GovReachableSat P st'

/-- Plain reachability of the governance registry. -/
def GovReachable (st : GovState) : Prop :=
  GovReachableSat (fun _ _ => True) st

/-- `ScholaChain.Certificate`. -/
structure Certificate : Type where
  documentHash : String
  ipfsCID : String
  issuer : Nat
  holder : Nat
  issuedAt : Nat
  revoked : Bool
  certificateType : String
deriving DecidableEq, Repr

/-- Storage of the `ScholaChain` certificate contract (the `governanceContract`
address is represented by passing the governance state to the operations that
call through it). -/
structure CertState : Type where
  certificates : List Certificate
  totalCertificates : Nat
  activeCertificates : Nat
deriving DecidableEq, Repr

/-- Error kinds for the certificate contract's `require` failures, named per
the spec's error taxonomy; `Underflow` is the Solidity 0.8 checked-arithmetic
revert on `activeCertificates--`. -/
inductive CertErr : Type
  | NotFound
  | Unauthorized
  | InvalidArgument
  | AlreadyRevoked
  | Underflow
deriving DecidableEq, Repr

/-- The `ScholaChain` constructor state: empty certificate array, zero
counters. -/
def certInit : CertState :=
  { certificates := [], totalCertificates := 0, activeCertificates := 0 }

/-- `issueCertificate` (certificate contract).  The `onlyAuthorizedIssuer`
modifier calls `governance.canIssueCertificates(msg.sender)` at call time
(`try`/`catch` cannot fail here: the governance view has no revert path); it
runs before the argument `require`s. -/
def issueCertificate (gov : GovState) (st : CertState) (caller : Nat)
    (dh cid : String) (holder : Nat) (ctype : String) (ts : Nat) :
    Except CertErr (CertState × Nat) :=
  if ¬ canIssueCertificates gov caller then .error .Unauthorized
  else if dh.utf8ByteSize ≠ 66 then .error .InvalidArgument
  else if cid.utf8ByteSize = 0 then .error .InvalidArgument
  else if holder = 0 then .error .InvalidArgument
  else if holder = caller then .error .InvalidArgument
  else
    let c : Certificate :=
      { documentHash := dh, ipfsCID := cid, issuer := caller, holder := holder
        issuedAt := ts, revoked := false, certificateType := ctype }
    let certs := st.certificates ++ [c]
    .ok
      ( { certificates := certs
          totalCertificates := st.totalCertificates + 1
          activeCertificates := st.activeCertificates + 1 }
      , certs.length - 1 )

/-- `revokeCertificate` (certificate contract).  The `certificateExists`
modifier runs first; authorization is "original issuer or current
`governance.isSuperAdmin`". -/
def revokeCertificate (gov : GovState) (st : CertState) (caller : Nat)
    (id : Nat) : Except CertErr CertState :=
  match st.certificates[id]? with
  | none => .error .NotFound
  | some c =>
    if ¬ (caller = c.issuer ∨ isSuperAdmin gov caller = true) then
      .error .Unauthorized
    else if c.revoked then .error .AlreadyRevoked
    else if st.activeCertificates = 0 then .error .Underflow
    else .ok
      { certificates := st.certificates.set id { c with revoked := true }
        totalCertificates := st.totalCertificates
        activeCertificates := st.activeCertificates - 1 }

/-- `verifyCertificate` (certificate contract, `view`): returns
`(isValid, issuer, holder, isRevoked)`.  It reads no governance state. -/
def verifyCertificate (st : CertState) (id : Nat) (dh : String) :
    Except CertErr (Bool × Nat × Nat × Bool) :=
  match st.certificates[id]? with
  | none => .error .NotFound
  | some c =>
    .ok (((c.documentHash == dh) && !c.revoked), c.issuer, c.holder, c.revoked)

/-- Combined state of the deployed pair (governance contract, certificate
contract wired to it). -/
structure SysState : Type where
  gov : GovState
  cert : CertState
deriving DecidableEq, Repr

/-- One successful mutation of either contract. -/
inductive SysStep : SysState → SysState → Prop
  | gov (g g' : GovState) (c : CertState) (op : GovOp) :
      GovStepOp op g g' → SysStep ⟨g, c⟩ ⟨g', c⟩
  | issue (g : GovState) (c c' : CertState) (caller : Nat) (dh cid : String)
      (holder : Nat) (ctype : String) (ts id : Nat) :
      issueCertificate g c caller dh cid holder ctype ts = .ok (c', id) →
      SysStep ⟨g, c⟩ ⟨g, c'⟩
  | revoke (g : GovState) (c c' : CertState) (caller id : Nat) :
      revokeCertificate g c caller id = .ok c' → SysStep ⟨g, c⟩ ⟨g, c'⟩

/-- States of the deployed pair reachable from the two constructors by
successful calls. -/
inductive SysReachable : SysState → Prop
  | init (ministry ts : Nat) (h : ministry ≠ 0) :
      SysReachable ⟨govInit ministry ts, certInit⟩
  | step {s s' : SysState} : SysReachable s → SysStep s s' → SysReachable s'

/-- Number of bindings in `institutions` whose institution has role `ISSUER`
and is active (= number of such registered addresses: `mset` keeps keys
duplicate-free, see `keysNodup_reachable`). -/
def countActiveIssuers (st : GovState) : Nat :=
  st.insts.countP (fun kv => kv.2.role == Role.ISSUER && kv.2.isActive)

/-- The bindings of `institutions` carry pairwise distinct addresses. -/
def KeysNodup (st : GovState) : Prop :=
  (st.insts.map Prod.fst).Nodup

/-- Exactly one address has role `SUPER_ADMIN`, and it is the registry's
super-admin pointer. -/
def UniqueSuperAdmin (st : GovState) : Prop :=
  ∀ b : Nat, (instOf st b).role = Role.SUPER_ADMIN ↔ b = st.superAdmin

/-- The `activeIssuers` counter agrees with the count of active `ISSUER`
institutions. -/
def ActiveIssuersOk (st : GovState) : Prop :=
  st.activeIssuers = countActiveIssuers st

/-- The institution pointed to by `superAdmin` is active. -/
def SuperAdminActive (st : GovState) : Prop :=
  (instOf st st.superAdmin).isActive = true

/-- Number of unrevoked certificates. -/
def countUnrevoked (st : CertState) : Nat :=
  st.certificates.countP (fun c => !c.revoked)

/-- The certificate counters agree with the certificate array. -/
def CertCountersOk (st : CertState) : Prop :=
  st.totalCertificates = st.certificates.length ∧
  st.activeCertificates = countUnrevoked st

/-- Side condition under which the unique-super-admin invariant is
preserved: `registerInstitution` is never asked to create a second
`SUPER_ADMIN` role, and `updateInstitutionRole` assigns `SUPER_ADMIN`
exactly when its target is the current super-admin pointer. -/
def AdminRoleDiscipline : GovOp → GovState → Prop
  | .register _ _ _ _ _ r _, _ => r ≠ Role.SUPER_ADMIN
  | .updateRole _ a r, st => r = Role.SUPER_ADMIN ↔ a = st.superAdmin
  | _, _ => True

/-- Side condition under which the `activeIssuers` counter stays correct:
`transferSuperAdmin` is only used when the current admin is an active
`SUPER_ADMIN` and the incoming admin is an active `ISSUER` (the
count-neutral swap the spec describes). -/
def TransferSwapNeutral : GovOp → GovState → Prop
  | .transfer _ a, st =>
      (instOf st st.superAdmin).role = Role.SUPER_ADMIN ∧
      (instOf st st.superAdmin).isActive = true ∧
      (instOf st a).role = Role.ISSUER ∧ (instOf st a).isActive = true
  | _, _ => True

/-- Side condition under which the super admin stays active: the
deactivating operations are never aimed at the super-admin pointer and
`transferSuperAdmin` only promotes active institutions. -/
def NoAdminDeactivation : GovOp → GovState → Prop
  | .revoke _ a _, st => a ≠ st.superAdmin
  | .setStatus _ a b, st => a ≠ st.superAdmin ∨ b = true
  | .transfer _ a, st => (instOf st a).isActive = true
  | _, _ => True

/-- Modelled from the spec: "`documentHash` ... fixed 32-byte value
(represented as a 66-character `0x`-prefixed hex string at the boundary)".
Used only to compare the spec's notion of a well-formed document hash with
the length-only check the code performs. -/
def specWellFormedDocumentHash (s : String) : Bool :=
  s.length == 66 && (s.take 2 == "0x") &&
    (s.drop 2).all (fun ch =>
      ch.isDigit || ('a' ≤ ch && ch ≤ 'f') || ('A' ≤ ch && ch ≤ 'F'))

/-- Extract the post-state of a successful governance call (used only to
name concrete reachable states; the accompanying theorems re-check the call
succeeded with exactly this result). -/
def govOk (d : GovState) : Except GovErr GovState → GovState
  | .ok s => s
  | .error _ => d

/-- Ministry `1` deploys at time `0`. -/
def gov0 : GovState := govInit 1 0

/-- `gov0`, then the super admin registers address `2` with role
`SUPER_ADMIN` — a second `SUPER_ADMIN`-role institution. -/
def govBad1 : GovState :=
  govOk gov0 (govApply (.register 1 2 "University" "U" "https://u.example" Role.SUPER_ADMIN 5) gov0)

/-- `gov0`, then address `2` is registered as an `ISSUER`. -/
def gov1 : GovState :=
  govOk gov0 (govApply (.register 1 2 "University" "U" "https://u.example" Role.ISSUER 5) gov0)

/-- `gov1`, then issuer `2` is revoked (deactivated). -/
def gov2 : GovState :=
  govOk gov1 (govApply (.revoke 1 2 "misconduct") gov1)

/-- `gov2`, then the super admin role is transferred to the deactivated
issuer `2`: the counter `activeIssuers` is left untouched although the old
admin `1` becomes an active `ISSUER`. -/
def govBad2 : GovState :=
  govOk gov2 (govApply (.transfer 1 2) gov2)

/-- `gov0`, then the super admin deactivates itself through
`setInstitutionStatus`. -/
def govBad3 : GovState :=
  govOk gov0 (govApply (.setStatus 1 1 false) gov0)

/-- A 66-byte document hash that is not a `0x`-prefixed hex string. -/
def badHash : String := String.mk (List.replicate 66 'z')

/-- A well-formed 66-character document hash, for witnesses. -/
def goodHash : String := String.mk ('0' :: 'x' :: List.replicate 64 'a')

/-- Result of issuer `2` issuing a certificate with the non-hex `badHash`
to holder `3` in governance state `gov1`. -/
def certBad7 : CertState :=
  { certificates :=
      [ { documentHash := badHash, ipfsCID := "Qm1", issuer := 2, holder := 3
          issuedAt := 9, revoked := false, certificateType := "" } ]
    totalCertificates := 1
    activeCertificates := 1 }

/-- `certBad7` after issuer `2` revokes certificate `0`. -/
def certRevoked : CertState :=
  { certificates :=
      [ { documentHash := badHash, ipfsCID := "Qm1", issuer := 2, holder := 3
          issuedAt := 9, revoked := true, certificateType := "" } ]
    totalCertificates := 1
    activeCertificates := 0 }

/-- `certRevoked` after issuer `2` issues a second certificate with
`goodHash`. -/
def certTwo : CertState :=
  { certificates :=
      [ { documentHash := badHash, ipfsCID := "Qm1", issuer := 2, holder := 3
          issuedAt := 9, revoked := true, certificateType := "" }
      , { documentHash := goodHash, ipfsCID := "Qm2", issuer := 2, holder := 3
          issuedAt := 11, revoked := false, certificateType := "" } ]
    totalCertificates := 2
    activeCertificates := 1 }

theorem mget_mset_self {β : Type} (m : List (Nat × β)) (d : β) (k : Nat)
    (v : β) : mget (mset m k v) d k = v := by
  induction m with
  | nil => simp [mset, mget]
  | cons q rest ih =>
    obtain ⟨b, w⟩ := q
    by_cases h : k = b
    · simp [mset, mget, h]
    · simp [mset, mget, h, ih]

theorem mget_mset_ne {β : Type} (m : List (Nat × β)) (d : β) (k k' : Nat)
    (v : β) (h : k' ≠ k) : mget (mset m k v) d k' = mget m d k' := by
  induction m with
  | nil => simp [mset, mget, h]
  | cons q rest ih =>
    obtain ⟨b, w⟩ := q
    by_cases hk : k = b
    · subst hk
      simp [mset, mget, h]
    · by_cases hk' : k' = b
      · simp [mset, mget, hk, hk']
      · simp [mset, mget, hk, hk', ih]

theorem mem_keys_mset {β : Type} (m : List (Nat × β)) (k x : Nat) (v : β) :
    x ∈ (mset m k v).map Prod.fst ↔ x ∈ m.map Prod.fst ∨ x = k := by
  induction m with
  | nil => simp [mset]
  | cons q rest ih =>
    obtain ⟨b, w⟩ := q
    by_cases h : k = b
    · subst h
      simp [mset]
      tauto
    · simp [mset, h, ih]
      tauto

theorem keysNodup_mset {β : Type} (m : List (Nat × β)) (k : Nat) (v : β)
    (h : (m.map Prod.fst).Nodup) : ((mset m k v).map Prod.fst).Nodup := by
  induction m with
  | nil => simp [mset]
  | cons q rest ih =>
    obtain ⟨b, w⟩ := q
    simp only [List.map_cons, List.nodup_cons] at h
    by_cases hk : k = b
    · subst hk
      simpa [mset] using h
    · simp only [mset, if_neg hk, List.map_cons, List.nodup_cons]
      refine ⟨?_, ih h.2⟩
      intro hmem
      rcases (mem_keys_mset rest k b v).mp hmem with h1 | h1
      · exact h.1 h1
      · exact hk h1.symm

theorem countP_mset (m : List (Nat × Institution)) (k : Nat) (v : Institution)
    (p : Institution → Bool) (hd : p defaultInstitution = false) :
    (mset m k v).countP (fun kv => p kv.2)
        + (if p (mget m defaultInstitution k) then 1 else 0)
      = m.countP (fun kv => p kv.2) + (if p v then 1 else 0) := by
  induction m with
  | nil => simp [mset, mget, List.countP_cons, hd]
  | cons q rest ih =>
    obtain ⟨b, w⟩ := q
    by_cases h : k = b
    · subst h
      simp [mset, mget, List.countP_cons]
      omega
    · simp [mset, mget, h, List.countP_cons]
      omega

theorem countP_set {α : Type} (l : List α) (i : Nat) (c c' : α) (p : α → Bool)
    (h : l[i]? = some c) :
    (l.set i c').countP p + (if p c then 1 else 0)
      = l.countP p + (if p c' then 1 else 0) := by
  induction l generalizing i with
  | nil => simp at h
  | cons a tl ih =>
    cases i with
    | zero =>
      simp only [List.getElem?_cons_zero, Option.some.injEq] at h
      subst h
      simp only [List.set_cons_zero, List.countP_cons]
      omega
    | succ n =>
      simp only [List.getElem?_cons_succ] at h
      have := ih n h
      simp only [List.set_cons_succ, List.countP_cons]
      omega

theorem registerInstitution_ok_iff {st st' : GovState} {caller a : Nat}
    {nm ds ws : String} {r : Role} {ts : Nat} :
    registerInstitution st caller a nm ds ws r ts = .ok st' ↔
      (caller = st.superAdmin ∧ a ≠ 0 ∧ nm ≠ "" ∧
       (instOf st a).role = Role.NONE ∧ r ≠ Role.NONE ∧
       st' = { st with
               insts := mset st.insts a
                 { name := nm, description := ds, website := ws
                   isActive := true, registeredAt := ts, role := r }
               totalInstitutions := st.totalInstitutions + 1
               authorized := if r = Role.ISSUER then mset st.authorized a true else st.authorized
               activeIssuers := if r = Role.ISSUER then st.activeIssuers + 1 else st.activeIssuers }) := by
  unfold registerInstitution
  constructor
  · intro h
    split_ifs at h <;> simp_all
  · rintro ⟨h1, h2, h3, h4, h5, rfl⟩
    split_ifs <;> simp_all

theorem revokeInstitution_ok_iff {st st' : GovState} {caller a : Nat} {reason : String} :
    revokeInstitution st caller a reason = .ok st' ↔
      (caller = st.superAdmin ∧ a ≠ 0 ∧ (instOf st a).role ≠ Role.NONE ∧
       (instOf st a).isActive = true ∧ (instOf st a).role = Role.ISSUER ∧
       st.activeIssuers ≠ 0 ∧
       st' = { st with
               insts := mset st.insts a { instOf st a with isActive := false }
               authorized := mset st.authorized a false
               activeIssuers := st.activeIssuers - 1 }) := by
  unfold revokeInstitution
  constructor
  · intro h
    split_ifs at h <;> simp_all
  · rintro ⟨h1, h2, h3, h4, h5, h6, rfl⟩
    split_ifs <;> simp_all

theorem reactivateInstitution_ok_iff {st st' : GovState} {caller a : Nat} :
    reactivateInstitution st caller a = .ok st' ↔
      (caller = st.superAdmin ∧ a ≠ 0 ∧ (instOf st a).role ≠ Role.NONE ∧
       (instOf st a).isActive = false ∧ (instOf st a).role = Role.ISSUER ∧
       st' = { st with
               insts := mset st.insts a { instOf st a with isActive := true }
               authorized := mset st.authorized a true
               activeIssuers := st.activeIssuers + 1 }) := by
  unfold reactivateInstitution
  constructor
  · intro h
    split_ifs at h <;> simp_all
  · rintro ⟨h1, h2, h3, h4, h5, rfl⟩
    split_ifs <;> simp_all

theorem updateInstitutionRole_ok_iff {st st' : GovState} {caller a : Nat} {r : Role} :
    updateInstitutionRole st caller a r = .ok st' ↔
      (caller = st.superAdmin ∧ a ≠ 0 ∧ (instOf st a).role ≠ Role.NONE ∧ r ≠ Role.NONE ∧
       ¬((instOf st a).role = Role.ISSUER ∧ r ≠ Role.ISSUER ∧
         (instOf st a).isActive = true ∧ st.activeIssuers = 0) ∧
       st' = { st with
               insts := mset st.insts a { instOf st a with role := r }
               authorized :=
                 if (instOf st a).role = Role.ISSUER ∧ r ≠ Role.ISSUER then
                   mset st.authorized a false
                 else if (instOf st a).role ≠ Role.ISSUER ∧ r = Role.ISSUER then
                   mset st.authorized a true
                 else st.authorized
               activeIssuers :=
                 if ((instOf st a).role = Role.ISSUER ∧ r ≠ Role.ISSUER) ∧
                     (instOf st a).isActive = true then st.activeIssuers - 1
                 else if ((instOf st a).role ≠ Role.ISSUER ∧ r = Role.ISSUER) ∧
                     (instOf st a).isActive = true then st.activeIssuers + 1
                 else st.activeIssuers }) := by
  unfold updateInstitutionRole
  constructor
  · intro h
    split_ifs at h <;> (try simp_all) <;> (split_ifs <;> simp_all)
  · rintro ⟨h1, h2, h3, h4, h5, rfl⟩
    split_ifs <;> simp_all

theorem setInstitutionStatus_ok_iff {st st' : GovState} {caller a : Nat} {b : Bool} :
    setInstitutionStatus st caller a b = .ok st' ↔
      (caller = st.superAdmin ∧ a ≠ 0 ∧ (instOf st a).role ≠ Role.NONE ∧
       (instOf st a).isActive ≠ b ∧
       ¬((instOf st a).role = Role.ISSUER ∧ b = false ∧ st.activeIssuers = 0) ∧
       st' = { st with
               insts := mset st.insts a { instOf st a with isActive := b }
               authorized :=
                 if (instOf st a).role = Role.ISSUER then mset st.authorized a b
                 else st.authorized
               activeIssuers :=
                 if (instOf st a).role = Role.ISSUER then
                   (if b then st.activeIssuers + 1 else st.activeIssuers - 1)
                 else st.activeIssuers }) := by
  unfold setInstitutionStatus
  constructor
  · intro h
    split_ifs at h <;> simp_all
  · rintro ⟨h1, h2, h3, h4, h5, rfl⟩
    split_ifs <;> simp_all

theorem transferSuperAdmin_ok_iff {st st' : GovState} {caller newA : Nat} :
    transferSuperAdmin st caller newA = .ok st' ↔
      (caller = st.superAdmin ∧ newA ≠ 0 ∧ (instOf st newA).role ≠ Role.NONE ∧
       newA ≠ st.superAdmin ∧
       st' = { st with
               insts := mset
                 (mset st.insts st.superAdmin
                   { instOf st st.superAdmin with role := Role.ISSUER }) newA
                 { mget (mset st.insts st.superAdmin
                     { instOf st st.superAdmin with role := Role.ISSUER })
                     defaultInstitution newA with role := Role.SUPER_ADMIN }
               authorized := mset (mset st.authorized st.superAdmin true) newA false
               superAdmin := newA }) := by
  unfold transferSuperAdmin
  constructor
  · intro h
    split_ifs at h <;> simp_all
  · rintro ⟨h1, h2, h3, h4, rfl⟩
    split_ifs <;> simp_all

theorem mget_mset {β : Type} (m : List (Nat × β)) (d : β) (k b : Nat) (v : β) :
    mget (mset m k v) d b = if b = k then v else mget m d b := by
  by_cases h : b = k
  · subst h
    simp [mget_mset_self]
  · simp [h, mget_mset_ne m d k b v h]

theorem uniqueSuperAdmin_init (m ts : Nat) : UniqueSuperAdmin (govInit m ts) := by
  intro b
  by_cases hb : b = m <;> simp [UniqueSuperAdmin, instOf, govInit, mget, hb, defaultInstitution]

theorem uniqueSuperAdmin_step {st st' : GovState} {op : GovOp}
    (hP : AdminRoleDiscipline op st) (hstep : GovStepOp op st st')
    (ih : UniqueSuperAdmin st) : UniqueSuperAdmin st' := by
  have hsa : (instOf st st.superAdmin).role = Role.SUPER_ADMIN := (ih st.superAdmin).mpr rfl
  cases op with
  | register caller a nm ds ws r ts =>
    have hs : registerInstitution st caller a nm ds ws r ts = .ok st' := hstep
    obtain ⟨h1, h2, h3, h4, h5, rfl⟩ := registerInstitution_ok_iff.mp hs
    simp only [AdminRoleDiscipline] at hP
    have hasa : a ≠ st.superAdmin := by
      intro he
      rw [he, hsa] at h4
      exact Role.noConfusion h4
    intro b
    by_cases hb : b = a
    · subst hb
      simp [instOf, mget_mset, hP, hasa]
    · simpa [instOf, mget_mset, hb] using ih b
  | revoke caller a reason =>
    have hs : revokeInstitution st caller a reason = .ok st' := hstep
    obtain ⟨h1, h2, h3, h4, h5, h6, rfl⟩ := revokeInstitution_ok_iff.mp hs
    intro b
    by_cases hb : b = a
    · subst hb
      simpa [instOf, mget_mset] using ih b
    · simpa [instOf, mget_mset, hb] using ih b
  | reactivate caller a =>
    have hs : reactivateInstitution st caller a = .ok st' := hstep
    obtain ⟨h1, h2, h3, h4, h5, rfl⟩ := reactivateInstitution_ok_iff.mp hs
    intro b
    by_cases hb : b = a
    · subst hb
      simpa [instOf, mget_mset] using ih b
    · simpa [instOf, mget_mset, hb] using ih b
  | updateRole caller a r =>
    have hs : updateInstitutionRole st caller a r = .ok st' := hstep
    obtain ⟨h1, h2, h3, h4, h5, rfl⟩ := updateInstitutionRole_ok_iff.mp hs
    simp only [AdminRoleDiscipline] at hP
    intro b
    by_cases hb : b = a
    · subst hb
      simpa [instOf, mget_mset] using hP
    · simpa [instOf, mget_mset, hb] using ih b
  | setStatus caller a bb =>
    have hs : setInstitutionStatus st caller a bb = .ok st' := hstep
    obtain ⟨h1, h2, h3, h4, h5, rfl⟩ := setInstitutionStatus_ok_iff.mp hs
    intro b
    by_cases hb : b = a
    · subst hb
      simpa [instOf, mget_mset] using ih b
    · simpa [instOf, mget_mset, hb] using ih b
  | transfer caller newA =>
    have hs : transferSuperAdmin st caller newA = .ok st' := hstep
    obtain ⟨h1, h2, h3, h4, rfl⟩ := transferSuperAdmin_ok_iff.mp hs
    intro b
    by_cases hb : b = newA
    · subst hb
      simp [instOf, mget_mset]
    · by_cases hbsa : b = st.superAdmin
      · subst hbsa
        simp [instOf, mget_mset, hb, Ne.symm h4]
      · have hbr := ih b
        simp only [instOf] at hbr
        simp [instOf, mget_mset, hb, hbsa, hbr]

theorem superAdminActive_init (m ts : Nat) : SuperAdminActive (govInit m ts) := by
  simp [SuperAdminActive, instOf, govInit, mget]

theorem superAdminActive_step {st st' : GovState} {op : GovOp}
    (hP : NoAdminDeactivation op st) (hstep : GovStepOp op st st')
    (ih : SuperAdminActive st) : SuperAdminActive st' := by
  cases op with
  | register caller a nm ds ws r ts =>
    have hs : registerInstitution st caller a nm ds ws r ts = .ok st' := hstep
    obtain ⟨h1, h2, h3, h4, h5, rfl⟩ := registerInstitution_ok_iff.mp hs
    by_cases hb : st.superAdmin = a
    · simp [SuperAdminActive, instOf, mget_mset, hb]
    · simpa [SuperAdminActive, instOf, mget_mset, hb] using ih
  | revoke caller a reason =>
    have hs : revokeInstitution st caller a reason = .ok st' := hstep
    obtain ⟨h1, h2, h3, h4, h5, h6, rfl⟩ := revokeInstitution_ok_iff.mp hs
    simp only [NoAdminDeactivation] at hP
    have hb : st.superAdmin ≠ a := fun he => hP he.symm
    simpa [SuperAdminActive, instOf, mget_mset, hb] using ih
  | reactivate caller a =>
    have hs : reactivateInstitution st caller a = .ok st' := hstep
    obtain ⟨h1, h2, h3, h4, h5, rfl⟩ := reactivateInstitution_ok_iff.mp hs
    by_cases hb : st.superAdmin = a
    · simp [SuperAdminActive, instOf, mget_mset, hb]
    · simpa [SuperAdminActive, instOf, mget_mset, hb] using ih
  | updateRole caller a r =>
    have hs : updateInstitutionRole st caller a r = .ok st' := hstep
    obtain ⟨h1, h2, h3, h4, h5, rfl⟩ := updateInstitutionRole_ok_iff.mp hs
    by_cases hb : st.superAdmin = a
    · simpa [SuperAdminActive, instOf, mget_mset, hb] using ih
    · simpa [SuperAdminActive, instOf, mget_mset, hb] using ih
  | setStatus caller a bb =>
    have hs : setInstitutionStatus st caller a bb = .ok st' := hstep
    obtain ⟨h1, h2, h3, h4, h5, rfl⟩ := setInstitutionStatus_ok_iff.mp hs
    simp only [NoAdminDeactivation] at hP
    by_cases hb : st.superAdmin = a
    · rcases hP with hne | htrue
      · exact absurd hb.symm hne
      · simp [SuperAdminActive, instOf, mget_mset, hb, htrue]
    · simpa [SuperAdminActive, instOf, mget_mset, hb] using ih
  | transfer caller newA =>
    have hs : transferSuperAdmin st caller newA = .ok st' := hstep
    obtain ⟨h1, h2, h3, h4, rfl⟩ := transferSuperAdmin_ok_iff.mp hs
    simp only [NoAdminDeactivation] at hP
    simpa [SuperAdminActive, instOf, mget_mset, h4] using hP

theorem keysNodup_init (m ts : Nat) : KeysNodup (govInit m ts) := by
  simp [KeysNodup, govInit]

theorem keysNodup_step {st st' : GovState} {op : GovOp}
    (hstep : GovStepOp op st st') (ih : KeysNodup st) : KeysNodup st' := by
  cases op with
  | register caller a nm ds ws r ts =>
    have hs : registerInstitution st caller a nm ds ws r ts = .ok st' := hstep
    obtain ⟨h1, h2, h3, h4, h5, rfl⟩ := registerInstitution_ok_iff.mp hs
    exact keysNodup_mset _ _ _ ih
  | revoke caller a reason =>
    have hs : revokeInstitution st caller a reason = .ok st' := hstep
    obtain ⟨h1, h2, h3, h4, h5, h6, rfl⟩ := revokeInstitution_ok_iff.mp hs
    exact keysNodup_mset _ _ _ ih
  | reactivate caller a =>
    have hs : reactivateInstitution st caller a = .ok st' := hstep
    obtain ⟨h1, h2, h3, h4, h5, rfl⟩ := reactivateInstitution_ok_iff.mp hs
    exact keysNodup_mset _ _ _ ih
  | updateRole caller a r =>
    have hs : updateInstitutionRole st caller a r = .ok st' := hstep
    obtain ⟨h1, h2, h3, h4, h5, rfl⟩ := updateInstitutionRole_ok_iff.mp hs
    exact keysNodup_mset _ _ _ ih
  | setStatus caller a bb =>
    have hs : setInstitutionStatus st caller a bb = .ok st' := hstep
    obtain ⟨h1, h2, h3, h4, h5, rfl⟩ := setInstitutionStatus_ok_iff.mp hs
    exact keysNodup_mset _ _ _ ih
  | transfer caller newA =>
    have hs : transferSuperAdmin st caller newA = .ok st' := hstep
    obtain ⟨h1, h2, h3, h4, rfl⟩ := transferSuperAdmin_ok_iff.mp hs
    exact keysNodup_mset _ _ _ (keysNodup_mset _ _ _ ih)

theorem activeIssuersOk_init (m ts : Nat) : ActiveIssuersOk (govInit m ts) := by
  simp [ActiveIssuersOk, countActiveIssuers, govInit, List.countP_cons]

theorem activeIssuersOk_step {st st' : GovState} {op : GovOp}
    (hP : TransferSwapNeutral op st) (hstep : GovStepOp op st st')
    (ih : ActiveIssuersOk st) : ActiveIssuersOk st' := by
  simp only [ActiveIssuersOk, countActiveIssuers] at ih ⊢
  cases op with
  | register caller a nm ds ws r ts =>
    have hs : registerInstitution st caller a nm ds ws r ts = .ok st' := hstep
    obtain ⟨h1, h2, h3, h4, h5, rfl⟩ := registerInstitution_ok_iff.mp hs
    have hc := countP_mset st.insts a
      { name := nm, description := ds, website := ws
        isActive := true, registeredAt := ts, role := r }
      (fun i => i.role == Role.ISSUER && i.isActive) (by simp [defaultInstitution])
    simp only [instOf] at h4
    by_cases hr : r = Role.ISSUER <;> simp [hr, h4] at hc ⊢ <;> omega
  | revoke caller a reason =>
    have hs : revokeInstitution st caller a reason = .ok st' := hstep
    obtain ⟨h1, h2, h3, h4, h5, h6, rfl⟩ := revokeInstitution_ok_iff.mp hs
    have hc := countP_mset st.insts a { instOf st a with isActive := false }
      (fun i => i.role == Role.ISSUER && i.isActive) (by simp [defaultInstitution])
    simp only [instOf] at h4 h5
    simp [h4, h5, instOf] at hc ⊢
    omega
  | reactivate caller a =>
    have hs : reactivateInstitution st caller a = .ok st' := hstep
    obtain ⟨h1, h2, h3, h4, h5, rfl⟩ := reactivateInstitution_ok_iff.mp hs
    have hc := countP_mset st.insts a { instOf st a with isActive := true }
      (fun i => i.role == Role.ISSUER && i.isActive) (by simp [defaultInstitution])
    simp only [instOf] at h4 h5
    simp [h4, h5, instOf] at hc ⊢
    omega
  | updateRole caller a r =>
    have hs : updateInstitutionRole st caller a r = .ok st' := hstep
    obtain ⟨h1, h2, h3, h4, h5, rfl⟩ := updateInstitutionRole_ok_iff.mp hs
    have hc := countP_mset st.insts a { instOf st a with role := r }
      (fun i => i.role == Role.ISSUER && i.isActive) (by simp [defaultInstitution])
    by_cases hri : (mget st.insts defaultInstitution a).role = Role.ISSUER <;>
      by_cases hr : r = Role.ISSUER <;>
      by_cases ha : (mget st.insts defaultInstitution a).isActive = true <;>
      simp [hri, hr, ha, instOf] at hc h5 ⊢ <;>
      omega
  | setStatus caller a bb =>
    have hs : setInstitutionStatus st caller a bb = .ok st' := hstep
    obtain ⟨h1, h2, h3, h4, h5, rfl⟩ := setInstitutionStatus_ok_iff.mp hs
    have hc := countP_mset st.insts a { instOf st a with isActive := bb }
      (fun i => i.role == Role.ISSUER && i.isActive) (by simp [defaultInstitution])
    cases bb with
    | false =>
      have ha : (mget st.insts defaultInstitution a).isActive = true := by
        simpa [instOf] using h4
      by_cases hri : (mget st.insts defaultInstitution a).role = Role.ISSUER <;>
        simp [hri, ha, instOf] at hc h5 ⊢ <;>
        omega
    | true =>
      have ha : (mget st.insts defaultInstitution a).isActive = false := by
        simpa [instOf] using h4
      by_cases hri : (mget st.insts defaultInstitution a).role = Role.ISSUER <;>
        simp [hri, ha, instOf] at hc ⊢ <;>
        omega
  | transfer caller newA =>
    have hs : transferSuperAdmin st caller newA = .ok st' := hstep
    obtain ⟨h1, h2, h3, h4, rfl⟩ := transferSuperAdmin_ok_iff.mp hs
    simp only [TransferSwapNeutral] at hP
    obtain ⟨hsaRole, hsaAct, hnaRole, hnaAct⟩ := hP
    have hc1 := countP_mset st.insts st.superAdmin
      { instOf st st.superAdmin with role := Role.ISSUER }
      (fun i => i.role == Role.ISSUER && i.isActive) (by simp [defaultInstitution])
    have hc2 := countP_mset
      (mset st.insts st.superAdmin { instOf st st.superAdmin with role := Role.ISSUER }) newA
      { mget (mset st.insts st.superAdmin
          { instOf st st.superAdmin with role := Role.ISSUER })
          defaultInstitution newA with role := Role.SUPER_ADMIN }
      (fun i => i.role == Role.ISSUER && i.isActive) (by simp [defaultInstitution])
    have hget : mget (mset st.insts st.superAdmin
        { instOf st st.superAdmin with role := Role.ISSUER })
        defaultInstitution newA = instOf st newA :=
      mget_mset_ne _ _ _ _ _ h4
    simp only [hget] at hc2 ⊢
    simp only [instOf] at hsaRole hsaAct hnaRole hnaAct
    simp [hsaRole, hsaAct, hnaRole, hnaAct, instOf] at hc1 hc2 ⊢
    omega

theorem uniqueSuperAdmin_reachable {st : GovState}
    (h : GovReachableSat AdminRoleDiscipline st) : UniqueSuperAdmin st := by
  induction h with
  | init m ts hm => exact uniqueSuperAdmin_init m ts
  | step hr hP hstep ih => exact uniqueSuperAdmin_step hP hstep ih

theorem activeIssuersOk_reachable {st : GovState}
    (h : GovReachableSat TransferSwapNeutral st) : ActiveIssuersOk st := by
  induction h with
  | init m ts hm => exact activeIssuersOk_init m ts
  | step hr hP hstep ih => exact activeIssuersOk_step hP hstep ih

theorem keysNodup_reachable {P : GovOp → GovState → Prop} {st : GovState}
    (h : GovReachableSat P st) : KeysNodup st := by
  induction h with
  | init m ts hm => exact keysNodup_init m ts
  | step hr hP hstep ih => exact keysNodup_step hstep ih

theorem superAdminActive_reachable {st : GovState}
    (h : GovReachableSat NoAdminDeactivation st) : SuperAdminActive st := by
  induction h with
  | init m ts hm => exact superAdminActive_init m ts
  | step hr hP hstep ih => exact superAdminActive_step hP hstep ih

theorem issueCertificate_ok_iff {gov : GovState} {st st' : CertState}
    {caller : Nat} {dh cid : String} {holder : Nat} {ctype : String}
    {ts id : Nat} :
    issueCertificate gov st caller dh cid holder ctype ts = .ok (st', id) ↔
      (canIssueCertificates gov caller = true ∧ dh.utf8ByteSize = 66 ∧
       cid.utf8ByteSize ≠ 0 ∧ holder ≠ 0 ∧ holder ≠ caller ∧
       st' = { certificates := st.certificates ++
                 [{ documentHash := dh, ipfsCID := cid, issuer := caller
                    holder := holder, issuedAt := ts, revoked := false
                    certificateType := ctype }]
               totalCertificates := st.totalCertificates + 1
               activeCertificates := st.activeCertificates + 1 } ∧
       id = st.certificates.length) := by
  unfold issueCertificate
  constructor
  · intro h
    split_ifs at h <;> simp_all
  · rintro ⟨h1, h2, h3, h4, h5, rfl, rfl⟩
    split_ifs <;> simp_all

theorem revokeCertificate_ok_iff {gov : GovState} {st st' : CertState}
    {caller id : Nat} :
    revokeCertificate gov st caller id = .ok st' ↔
      ∃ c, st.certificates[id]? = some c ∧
        (caller = c.issuer ∨ isSuperAdmin gov caller = true) ∧
        c.revoked = false ∧ st.activeCertificates ≠ 0 ∧
        st' = { certificates := st.certificates.set id { c with revoked := true }
                totalCertificates := st.totalCertificates
                activeCertificates := st.activeCertificates - 1 } := by
  unfold revokeCertificate
  constructor
  · intro h
    cases hm : st.certificates[id]? with
    | none => simp [hm] at h
    | some c =>
      simp only [hm] at h
      split_ifs at h <;> simp_all
  · rintro ⟨c, hm, hauth, hrev, hact, rfl⟩
    simp only [hm]
    split_ifs <;> simp_all

theorem certCountersOk_init : CertCountersOk certInit := by
  simp [CertCountersOk, certInit, countUnrevoked]

theorem certCountersOk_step {s s' : SysState} (hstep : SysStep s s')
    (ih : CertCountersOk s.cert) : CertCountersOk s'.cert := by
  cases hstep with
  | gov g g' c op h => exact ih
  | issue g c c' caller dh cid holder ctype ts id h =>
    obtain ⟨h1, h2, h3, h4, h5, rfl, rfl⟩ := issueCertificate_ok_iff.mp h
    obtain ⟨iht, iha⟩ := ih
    simp only [countUnrevoked] at iha
    constructor
    · simpa using iht
    · simp [countUnrevoked, List.countP_append, List.countP_cons] at iha ⊢
      omega
  | revoke g c c' caller id h =>
    obtain ⟨cert, hm, hauth, hrev, hact, rfl⟩ := revokeCertificate_ok_iff.mp h
    obtain ⟨iht, iha⟩ := ih
    constructor
    · simpa [List.length_set] using iht
    · have hc := countP_set _ _ _ ({ cert with revoked := true })
        (fun x => !x.revoked) hm
      simp only [countUnrevoked] at iha ⊢
      simp [hrev] at hc
      omega

theorem certCountersOk_reachable {s : SysState} (h : SysReachable s) :
    CertCountersOk s.cert := by
  induction h with
  | init m ts hm => exact certCountersOk_init
  | step hr hstep ih => exact certCountersOk_step hstep ih

theorem certificates_mono_step {s s' : SysState} (hstep : SysStep s s') :
    s.cert.certificates.length ≤ s'.cert.certificates.length := by
  cases hstep with
  | gov g g' c op h => exact Nat.le_refl _
  | issue g c c' caller dh cid holder ctype ts id h =>
    obtain ⟨h1, h2, h3, h4, h5, rfl, rfl⟩ := issueCertificate_ok_iff.mp h
    simp
  | revoke g c c' caller id h =>
    obtain ⟨cert, hm, hauth, hrev, hact, rfl⟩ := revokeCertificate_ok_iff.mp h
    simp [List.length_set]

theorem govStepSat {P : GovOp → GovState → Prop} {st st' : GovState}
    (h : GovReachableSat P st) (op : GovOp) (hP : P op st)
    (hs : GovStepOp op st st') : GovReachableSat P st' :=
  GovReachableSat.step h hP hs

theorem sysGovStep {g g' : GovState} {c : CertState}
    (h : SysReachable ⟨g, c⟩) (op : GovOp) (hs : GovStepOp op g g') :
    SysReachable ⟨g', c⟩ :=
  SysReachable.step h (SysStep.gov g g' c op hs)

theorem sysIssueStep {g : GovState} {c c' : CertState}
    (h : SysReachable ⟨g, c⟩) (caller : Nat) (dh cid : String) (holder : Nat)
    (ctype : String) (ts id : Nat)
    (hs : issueCertificate g c caller dh cid holder ctype ts = .ok (c', id)) :
    SysReachable ⟨g, c'⟩ :=
  SysReachable.step h (SysStep.issue g c c' caller dh cid holder ctype ts id hs)

theorem sysRevokeStep {g : GovState} {c c' : CertState}
    (h : SysReachable ⟨g, c⟩) (caller id : Nat)
    (hs : revokeCertificate g c caller id = .ok c') :
    SysReachable ⟨g, c'⟩ :=
  SysReachable.step h (SysStep.revoke g c c' caller id hs)

theorem gov0_reachable : GovReachable gov0 :=
  GovReachableSat.init 1 0 (by decide)

theorem gov1_reachable : GovReachable gov1 :=
  govStepSat gov0_reachable
    (GovOp.register 1 2 "University" "U" "https://u.example" Role.ISSUER 5)
    trivial (by decide)

theorem gov2_reachable : GovReachable gov2 :=
  govStepSat gov1_reachable (GovOp.revoke 1 2 "misconduct") trivial (by decide)

/-- C1, counterexample: the claim "exactly one registered address has role
SUPER_ADMIN and it equals the superAdmin pointer in every reachable state"
is false: from the constructor state (ministry `1`), the super admin can
call `registerInstitution(2, ..., SUPER_ADMIN)`, reaching a state in which
both `1` and `2` hold role `SUPER_ADMIN` while the pointer is `1`. -/
theorem c1_counterexample :
    GovReachable govBad1 ∧
    (instOf govBad1 1).role = Role.SUPER_ADMIN ∧
    (instOf govBad1 2).role = Role.SUPER_ADMIN ∧
    govBad1.superAdmin = 1 ∧
    ¬ UniqueSuperAdmin govBad1 := by
  refine ⟨?_, by decide, by decide, by decide, ?_⟩
  · exact govStepSat gov0_reachable
      (GovOp.register 1 2 "University" "U" "https://u.example" Role.SUPER_ADMIN 5)
      trivial (by decide)
  · intro h
    have h2 := (h 2).mp (by decide)
    have h1 := (h 1).mp (by decide)
    exact absurd (h2.trans h1.symm) (by decide)

/-- C1, amended: exactly one registered address has role SUPER_ADMIN and it
equals the registry's superAdmin pointer, in every state reachable by
successful calls in which `registerInstitution` is never passed role
SUPER_ADMIN and `updateInstitutionRole` assigns SUPER_ADMIN exactly to the
current pointer address (the unrestricted operations can mint a second
SUPER_ADMIN role or demote the pointer, see the counterexample). -/
theorem c1_unique_super_admin_restricted :
    ∀ st : GovState, GovReachableSat AdminRoleDiscipline st →
      UniqueSuperAdmin st :=
  fun _ h => uniqueSuperAdmin_reachable h

/-- C1, witness: the amended claim applied to the concrete reachable state
`gov1` (ministry `1`, issuer `2`). -/
theorem c1_witness :
    GovReachableSat AdminRoleDiscipline gov1 ∧ UniqueSuperAdmin gov1 := by
  have h : GovReachableSat AdminRoleDiscipline gov1 := by
    refine govStepSat (GovReachableSat.init 1 0 (by decide))
      (GovOp.register 1 2 "University" "U" "https://u.example" Role.ISSUER 5)
      ?_ (by decide)
    show Role.ISSUER ≠ Role.SUPER_ADMIN
    decide
  exact ⟨h, c1_unique_super_admin_restricted gov1 h⟩

/-- C2, counterexample: the claim "`activeIssuers` equals the number of
active ISSUER institutions in every reachable state, and in particular
`transferSuperAdmin` preserves this" is false: register issuer `2`, revoke
it (counter back to 0), then transfer the super admin role to `2`; the old
admin `1` becomes an active ISSUER but `transferSuperAdmin` never touches
the counter, leaving `activeIssuers = 0` against a true count of `1`. -/
theorem c2_counterexample :
    GovReachable govBad2 ∧
    govBad2.activeIssuers = 0 ∧
    countActiveIssuers govBad2 = 1 ∧
    ¬ ActiveIssuersOk govBad2 := by
  refine ⟨?_, by decide, ?_, ?_⟩
  · exact govStepSat gov2_reachable (GovOp.transfer 1 2) trivial (by decide)
  · show countActiveIssuers govBad2 = 1
    decide
  · show ¬ (govBad2.activeIssuers = countActiveIssuers govBad2)
    decide

/-- C2, amended: `activeIssuers` equals the number of bindings (addresses:
the key list stays duplicate-free) whose institution has role ISSUER and is
active, in every state reachable by successful calls in which every
`transferSuperAdmin` is the count-neutral swap described by the spec: the
outgoing admin holds role SUPER_ADMIN and is active, and the incoming admin
is an active ISSUER.  An unrestricted transfer breaks the equality because
the code rewrites the `authorizedIssuers` flags without adjusting the
counter, see the counterexample. -/
theorem c2_active_issuers_restricted :
    ∀ st : GovState, GovReachableSat TransferSwapNeutral st →
      ActiveIssuersOk st ∧ KeysNodup st :=
  fun _ h => ⟨activeIssuersOk_reachable h, keysNodup_reachable h⟩

/-- C2, witness: the amended claim applied to the concrete reachable state
`gov2` (issuer `2` registered and then revoked). -/
theorem c2_witness :
    GovReachableSat TransferSwapNeutral gov2 ∧
    (ActiveIssuersOk gov2 ∧ KeysNodup gov2) := by
  have h0 : GovReachableSat TransferSwapNeutral gov1 :=
    govStepSat (GovReachableSat.init 1 0 (by decide))
      (GovOp.register 1 2 "University" "U" "https://u.example" Role.ISSUER 5)
      trivial (by decide)
  have h : GovReachableSat TransferSwapNeutral gov2 :=
    govStepSat h0 (GovOp.revoke 1 2 "misconduct") trivial (by decide)
  exact ⟨h, c2_active_issuers_restricted gov2 h⟩

/-- C3, counterexample: the claim "the SUPER_ADMIN institution is always
active; no operation, including setInstitutionStatus, can leave the super
admin deactivated" is false: from the constructor state the super admin
can call `setInstitutionStatus(superAdmin, false)` on itself — the guard
only requires the target to be registered and the status to change — and
the pointer's institution ends up with `isActive = false`. -/
theorem c3_counterexample :
    GovReachable govBad3 ∧
    (instOf govBad3 govBad3.superAdmin).role = Role.SUPER_ADMIN ∧
    (instOf govBad3 govBad3.superAdmin).isActive = false ∧
    ¬ SuperAdminActive govBad3 := by
  refine ⟨?_, by decide, by decide, ?_⟩
  · exact govStepSat gov0_reachable (GovOp.setStatus 1 1 false) trivial (by decide)
  · show ¬ ((instOf govBad3 govBad3.superAdmin).isActive = true)
    decide

/-- C3, amended: the institution pointed to by `superAdmin` is active in
every state reachable by successful calls in which `revokeInstitution` and
`setInstitutionStatus(·, false)` are never aimed at the current super-admin
pointer and `transferSuperAdmin` only targets active institutions.  Without
the restriction the super admin can be deactivated (see counterexample), and
a transfer to an inactive institution installs an inactive super admin. -/
theorem c3_super_admin_active_restricted :
    ∀ st : GovState, GovReachableSat NoAdminDeactivation st →
      SuperAdminActive st :=
  fun _ h => superAdminActive_reachable h

/-- C3, witness: the amended claim applied to the concrete reachable state
`gov2` (issuer `2` registered, then revoked — a deactivation aimed at a
non-admin target). -/
theorem c3_witness :
    GovReachableSat NoAdminDeactivation gov2 ∧ SuperAdminActive gov2 := by
  have h0 : GovReachableSat NoAdminDeactivation gov1 :=
    govStepSat (GovReachableSat.init 1 0 (by decide))
      (GovOp.register 1 2 "University" "U" "https://u.example" Role.ISSUER 5)
      trivial (by decide)
  have h : GovReachableSat NoAdminDeactivation gov2 :=
    govStepSat h0 (GovOp.revoke 1 2 "misconduct")
      (show (2 : Nat) ≠ gov1.superAdmin by decide) (by decide)
  exact ⟨h, c3_super_admin_active_restricted gov2 h⟩

theorem countP_pos_of_getElem {α : Type} {l : List α} {i : Nat} {c : α}
    {p : α → Bool} (h : l[i]? = some c) (hp : p c = true) : 0 < l.countP p :=
  List.countP_pos_iff.mpr ⟨c, List.getElem?_mem h, hp⟩

/-- C4: in every reachable state of the deployed pair, `revokeCertificate`
succeeds exactly when the certificate exists, the caller is its stored
issuer or the current governance super admin, and it is not yet revoked —
with no requirement that the issuer still be an active issuer; on success
it flips the `revoked` flag and decrements `activeCertificates` (shown
positive, so the Nat subtraction is a real decrement); each failure returns
the corresponding typed error (NotFound checked first, then Unauthorized,
then AlreadyRevoked) and, being an `Except` error, leaves the state
unchanged. -/
theorem c4_revoke_characterization :
    ∀ (g : GovState) (c : CertState), SysReachable ⟨g, c⟩ →
      ∀ caller id : Nat,
      (c.certificates[id]? = none →
        revokeCertificate g c caller id = .error .NotFound) ∧
      (∀ cert : Certificate, c.certificates[id]? = some cert →
        (¬(caller = cert.issuer ∨ isSuperAdmin g caller = true) →
          revokeCertificate g c caller id = .error .Unauthorized) ∧
        ((caller = cert.issuer ∨ isSuperAdmin g caller = true) →
          cert.revoked = true →
          revokeCertificate g c caller id = .error .AlreadyRevoked) ∧
        ((caller = cert.issuer ∨ isSuperAdmin g caller = true) →
          cert.revoked = false →
          0 < c.activeCertificates ∧
          revokeCertificate g c caller id = .ok
            { certificates := c.certificates.set id { cert with revoked := true }
              totalCertificates := c.totalCertificates
              activeCertificates := c.activeCertificates - 1 })) := by
  intro g c hreach caller id
  have hinv : c.activeCertificates = countUnrevoked c :=
    (certCountersOk_reachable hreach).2
  constructor
  · intro hnone
    unfold revokeCertificate
    simp [hnone]
  · intro cert hsome
    refine ⟨?_, ?_, ?_⟩
    · intro hna
      unfold revokeCertificate
      simp only [hsome]
      rw [if_pos hna]
    · intro hauth hrev
      unfold revokeCertificate
      simp only [hsome]
      rw [if_neg (not_not_intro hauth), if_pos hrev]
    · intro hauth hrev
      have hpos : 0 < c.activeCertificates := by
        rw [hinv]
        exact countP_pos_of_getElem hsome (by simp [hrev])
      refine ⟨hpos, ?_⟩
      unfold revokeCertificate
      simp only [hsome]
      rw [if_neg (not_not_intro hauth), if_neg (by simp [hrev]),
        if_neg (by omega)]

/-- C4, witness: in the concrete reachable pair (`gov1`, `certBad7`) —
where issuer `2` issued certificate `0` — the characterization yields the
successful revocation by the original issuer with the counter decremented
to `0`. -/
theorem c4_witness :
    SysReachable ⟨gov1, certBad7⟩ ∧
    0 < certBad7.activeCertificates ∧
    revokeCertificate gov1 certBad7 2 0 = .ok
      { certificates := certBad7.certificates.set 0
          { documentHash := badHash, ipfsCID := "Qm1", issuer := 2, holder := 3
            issuedAt := 9, revoked := true, certificateType := "" }
        totalCertificates := certBad7.totalCertificates
        activeCertificates := certBad7.activeCertificates - 1 } := by
  have h0 : SysReachable ⟨gov1, certInit⟩ :=
    sysGovStep (SysReachable.init 1 0 (by decide))
      (GovOp.register 1 2 "University" "U" "https://u.example" Role.ISSUER 5)
      (by decide)
  have hreach : SysReachable ⟨gov1, certBad7⟩ :=
    sysIssueStep h0 2 badHash "Qm1" 3 "" 9 0 (by decide)
  have h := ((c4_revoke_characterization gov1 certBad7 hreach 2 0).2
      { documentHash := badHash, ipfsCID := "Qm1", issuer := 2, holder := 3
        issuedAt := 9, revoked := false, certificateType := "" }
      (by decide)).2.2 (Or.inl rfl) rfl
  exact ⟨hreach, h.1, h.2⟩

/-- C5: `verifyCertificate` is a pure query (it takes no governance state
at all, so it cannot consult the issuer's current authorization, and it
returns no new state): when certificate `id` exists it returns
`isValid = (stored hash == supplied hash && not revoked)` together with the
stored issuer, holder and revoked flag, and when `id` does not exist it
fails with `NotFound`. -/
theorem c5_verify_characterization :
    ∀ (st : CertState) (id : Nat) (dh : String),
      (st.certificates[id]? = none →
        verifyCertificate st id dh = .error .NotFound) ∧
      (∀ cert : Certificate, st.certificates[id]? = some cert →
        verifyCertificate st id dh =
          .ok (((cert.documentHash == dh) && !cert.revoked),
               cert.issuer, cert.holder, cert.revoked)) := by
  intro st id dh
  constructor
  · intro hnone
    unfold verifyCertificate
    simp [hnone]
  · intro cert hsome
    unfold verifyCertificate
    simp [hsome]

/-- C5, witness: verifying certificate `0` of `certBad7` with its stored
hash returns valid, and verifying the missing id `1` fails `NotFound`. -/
theorem c5_witness :
    verifyCertificate certBad7 0 badHash = .ok (true, 2, 3, false) ∧
    verifyCertificate certBad7 1 badHash = .error .NotFound := by
  constructor
  · have h := (c5_verify_characterization certBad7 0 badHash).2
      { documentHash := badHash, ipfsCID := "Qm1", issuer := 2, holder := 3
        issuedAt := 9, revoked := false, certificateType := "" }
      (by decide)
    rw [h]
    decide
  · exact (c5_verify_characterization certBad7 1 badHash).1 (by decide)

/-- C6: for every governance and certificate state, an address satisfies
`canIssueCertificates` exactly when an `issueCertificate` call from it with
arguments passing the argument checks (66-byte document hash, non-empty
content reference, non-zero holder different from the caller) succeeds;
the authorization is the same governance query evaluated at call time, so
there is no further implicit precondition on the caller. -/
theorem c6_can_issue_iff_issue_succeeds :
    ∀ (g : GovState) (c : CertState) (caller : Nat) (dh cid : String)
      (holder : Nat) (ctype : String) (ts : Nat),
      dh.utf8ByteSize = 66 → cid.utf8ByteSize ≠ 0 → holder ≠ 0 →
      holder ≠ caller →
      (canIssueCertificates g caller = true ↔
        ∃ (c' : CertState) (id : Nat),
          issueCertificate g c caller dh cid holder ctype ts = .ok (c', id)) := by
  intro g c caller dh cid holder ctype ts h1 h2 h3 h4
  constructor
  · intro hca
    exact ⟨_, _, issueCertificate_ok_iff.mpr ⟨hca, h1, h2, h3, h4, rfl, rfl⟩⟩
  · rintro ⟨c', id, h⟩
    exact (issueCertificate_ok_iff.mp h).1

/-- C6, witness: in `gov1`, address `2` can issue and the corresponding
concrete `issueCertificate` call with `goodHash` succeeds; the hypotheses
are evaluated on the concrete strings. -/
theorem c6_witness :
    goodHash.utf8ByteSize = 66 ∧
    canIssueCertificates gov1 2 = true ∧
    (∃ (c' : CertState) (id : Nat),
      issueCertificate gov1 certInit 2 goodHash "Qm1" 3 "" 9 = .ok (c', id)) := by
  refine ⟨by decide, by decide, ?_⟩
  exact (c6_can_issue_iff_issue_succeeds gov1 certInit 2 goodHash "Qm1" 3 "" 9
    (by decide) (by decide) (by decide) (by decide)).mp (by decide)

/-- C7, counterexample: the claim "issueCertificate succeeds only when the
document hash is a well-formed 66-character 0x-prefixed hexadecimal
fingerprint" is false: the code checks only `bytes(hash).length == 66`, so
an authorized issuer can successfully issue with a 66-byte string of `z`s,
which is not a `0x`-prefixed hex string (per the spec-modelled
well-formedness predicate). -/
theorem c7_counterexample :
    SysReachable ⟨gov1, certInit⟩ ∧
    specWellFormedDocumentHash badHash = false ∧
    badHash.utf8ByteSize = 66 ∧
    issueCertificate gov1 certInit 2 badHash "Qm1" 3 "" 9 = .ok (certBad7, 0) := by
  refine ⟨?_, by decide, by decide, by decide⟩
  exact sysGovStep (SysReachable.init 1 0 (by decide))
    (GovOp.register 1 2 "University" "U" "https://u.example" Role.ISSUER 5)
    (by decide)

/-- C7, amended: `issueCertificate` succeeds exactly when the caller is
authorized and the arguments pass the code's checks: the document hash is
exactly 66 bytes long (the length of a 66-character 0x-prefixed hex string,
but its content is not validated), the content reference is non-empty and
the holder is a non-zero address different from the caller; a call from an
authorized caller violating one of the argument checks fails with
`InvalidArgument` (an unauthorized caller fails `Unauthorized` first), and
an `Except` error leaves the registry unchanged. -/
theorem c7_issue_argument_checks :
    ∀ (g : GovState) (c : CertState) (caller : Nat) (dh cid : String)
      (holder : Nat) (ctype : String) (ts : Nat),
      ((∃ (c' : CertState) (id : Nat),
          issueCertificate g c caller dh cid holder ctype ts = .ok (c', id)) ↔
        (canIssueCertificates g caller = true ∧ dh.utf8ByteSize = 66 ∧
         cid.utf8ByteSize ≠ 0 ∧ holder ≠ 0 ∧ holder ≠ caller)) ∧
      (canIssueCertificates g caller = true →
        ¬(dh.utf8ByteSize = 66 ∧ cid.utf8ByteSize ≠ 0 ∧ holder ≠ 0 ∧
          holder ≠ caller) →
        issueCertificate g c caller dh cid holder ctype ts =
          .error .InvalidArgument) := by
  intro g c caller dh cid holder ctype ts
  constructor
  · constructor
    · rintro ⟨c', id, h⟩
      obtain ⟨h1, h2, h3, h4, h5, _, _⟩ := issueCertificate_ok_iff.mp h
      exact ⟨h1, h2, h3, h4, h5⟩
    · rintro ⟨h1, h2, h3, h4, h5⟩
      exact ⟨_, _, issueCertificate_ok_iff.mpr ⟨h1, h2, h3, h4, h5, rfl, rfl⟩⟩
  · intro hca hbad
    unfold issueCertificate
    rw [if_neg (not_not_intro hca)]
    split_ifs with k1 k2 k3 k4
    · rfl
    · rfl
    · rfl
    · rfl
    · exact absurd ⟨not_not.mp k1, k2, k3, k4⟩ hbad

/-- C7, witness: the amended claim at concrete inputs: with `goodHash` and
a non-empty content reference the call succeeds, and with an empty content
reference the authorized caller gets `InvalidArgument`. -/
theorem c7_witness :
    (∃ (c' : CertState) (id : Nat),
       issueCertificate gov1 certInit 2 goodHash "Qm1" 3 "" 9 = .ok (c', id)) ∧
    issueCertificate gov1 certInit 2 goodHash "" 3 "" 9 =
      .error .InvalidArgument := by
  constructor
  · exact (c7_issue_argument_checks gov1 certInit 2 goodHash "Qm1" 3 "" 9).1.mpr
      ⟨by decide, by decide, by decide, by decide, by decide⟩
  · exact (c7_issue_argument_checks gov1 certInit 2 goodHash "" 3 "" 9).2
      (by decide) (by decide)

/-- C8: certificate ids are dense indices: in every reachable state the
`totalCertificates` counter equals the array length and an id exists
exactly when it is `< totalCertificates` (so the existing ids are exactly
`0 .. totalCertificates - 1`, assigned from 0 with no gaps); every
successful `issueCertificate` returns the pre-state `totalCertificates` as
the new id and increments the counter by one; and no step of either
contract shrinks the certificate array (nothing is removed or reused). -/
theorem c8_sequential_ids :
    (∀ s : SysState, SysReachable s →
       s.cert.totalCertificates = s.cert.certificates.length ∧
       (∀ id : Nat, (∃ cert : Certificate,
           s.cert.certificates[id]? = some cert) ↔
         id < s.cert.totalCertificates)) ∧
    (∀ (g : GovState) (c c' : CertState) (caller : Nat) (dh cid : String)
       (holder : Nat) (ctype : String) (ts id : Nat),
       SysReachable ⟨g, c⟩ →
       issueCertificate g c caller dh cid holder ctype ts = .ok (c', id) →
       id = c.totalCertificates ∧
       c'.totalCertificates = c.totalCertificates + 1) ∧
    (∀ s s' : SysState, SysStep s s' →
       s.cert.certificates.length ≤ s'.cert.certificates.length) := by
  refine ⟨?_, ?_, ?_⟩
  · intro s hs
    have ht := (certCountersOk_reachable hs).1
    refine ⟨ht, ?_⟩
    intro id
    rw [ht]
    constructor
    · rintro ⟨cert, hc⟩
      exact (List.getElem?_eq_some.mp hc).1
    · intro hlt
      exact ⟨_, List.getElem?_eq_getElem hlt⟩
  · intro g c c' caller dh cid holder ctype ts id hreach hok
    obtain ⟨_, _, _, _, _, rfl, rfl⟩ := issueCertificate_ok_iff.mp hok
    have ht := (certCountersOk_reachable hreach).1
    exact ⟨ht.symm, by simp⟩
  · exact fun s s' h => certificates_mono_step h

/-- C8, witness: the three parts at concrete inputs — the reachable pair
(`gov1`, `certBad7`), the concrete issuance that produced it (id `0`, one
certificate), and the corresponding concrete step. -/
theorem c8_witness :
    (certBad7.totalCertificates = certBad7.certificates.length ∧
     ((∃ cert : Certificate, certBad7.certificates[0]? = some cert) ↔
       0 < certBad7.totalCertificates)) ∧
    ((0 : Nat) = certInit.totalCertificates ∧
     certBad7.totalCertificates = certInit.totalCertificates + 1) ∧
    certInit.certificates.length ≤ certBad7.certificates.length := by
  have h0 : SysReachable ⟨gov1, certInit⟩ :=
    sysGovStep (SysReachable.init 1 0 (by decide))
      (GovOp.register 1 2 "University" "U" "https://u.example" Role.ISSUER 5)
      (by decide)
  have h1 := c8_sequential_ids.1 ⟨gov1, certBad7⟩
    (sysIssueStep h0 2 badHash "Qm1" 3 "" 9 0 (by decide))
  have h2 := c8_sequential_ids.2.1 gov1 certInit certBad7 2 badHash "Qm1" 3 ""
    9 0 h0 (by decide)
  have h3 := c8_sequential_ids.2.2 ⟨gov1, certInit⟩ ⟨gov1, certBad7⟩
    (SysStep.issue gov1 certInit certBad7 2 badHash "Qm1" 3 "" 9 0 (by decide))
  exact ⟨⟨h1.1, h1.2 0⟩, h2, h3⟩

/-- C9: the `revoked` flag is one-way across the whole system: for every
single step of either contract (governance mutation, issuance, or
revocation), a certificate whose `revoked` flag is true before the step is
still present at the same id with `revoked` still true after it. -/
theorem c9_revoked_one_way :
    ∀ s s' : SysState, SysStep s s' → ∀ (i : Nat) (cert : Certificate),
      s.cert.certificates[i]? = some cert → cert.revoked = true →
      ∃ cert' : Certificate, s'.cert.certificates[i]? = some cert' ∧
        cert'.revoked = true := by
  intro s s' hstep i cert hsome hrev
  cases hstep with
  | gov g g' c op h => exact ⟨cert, hsome, hrev⟩
  | issue g c c' caller dh cid holder ctype ts id h =>
    obtain ⟨_, _, _, _, _, rfl, rfl⟩ := issueCertificate_ok_iff.mp h
    have hi : i < c.certificates.length := (List.getElem?_eq_some.mp hsome).1
    refine ⟨cert, ?_, hrev⟩
    simpa [List.getElem?_append, hi] using hsome
  | revoke g c c' caller id h =>
    obtain ⟨c2, hm, hauth, hrev2, hact, rfl⟩ := revokeCertificate_ok_iff.mp h
    by_cases hij : id = i
    · subst hij
      rw [hm] at hsome
      injection hsome with he
      rw [← he, hrev2] at hrev
      exact absurd hrev (by decide)
    · refine ⟨cert, ?_, hrev⟩
      simpa [List.getElem?_set, hij] using hsome

/-- C9, witness: a concrete step (issuing a second certificate) from a
state whose certificate `0` is revoked keeps certificate `0` revoked. -/
theorem c9_witness :
    SysStep ⟨gov1, certRevoked⟩ ⟨gov1, certTwo⟩ ∧
    (∃ cert' : Certificate, certTwo.certificates[0]? = some cert' ∧
      cert'.revoked = true) := by
  have hstep : SysStep ⟨gov1, certRevoked⟩ ⟨gov1, certTwo⟩ :=
    SysStep.issue gov1 certRevoked certTwo 2 goodHash "Qm2" 3 "" 11 1 (by decide)
  refine ⟨hstep, ?_⟩
  exact c9_revoked_one_way ⟨gov1, certRevoked⟩ ⟨gov1, certTwo⟩ hstep 0
    { documentHash := badHash, ipfsCID := "Qm1", issuer := 2, holder := 3
      issuedAt := 9, revoked := true, certificateType := "" }
    (by decide) rfl

/-- C10: only the address stored in the `superAdmin` pointer passes the
`onlySuperAdmin` modifier: every admin-gated operation invoked by any other
caller fails `Unauthorized` (an `Except` error, so the state is unchanged),
and `isSuperAdmin` is false for every non-pointer address — in particular
for a registered institution whose role field is SUPER_ADMIN but which is
not the pointer. -/
theorem c10_only_super_admin :
    ∀ (st : GovState) (caller : Nat), caller ≠ st.superAdmin →
      (∀ (a : Nat) (nm ds ws : String) (r : Role) (ts : Nat),
        registerInstitution st caller a nm ds ws r ts =
          .error .Unauthorized) ∧
      (∀ (a : Nat) (reason : String),
        revokeInstitution st caller a reason = .error .Unauthorized) ∧
      (∀ a : Nat, reactivateInstitution st caller a = .error .Unauthorized) ∧
      (∀ (a : Nat) (r : Role),
        updateInstitutionRole st caller a r = .error .Unauthorized) ∧
      (∀ (a : Nat) (b : Bool),
        setInstitutionStatus st caller a b = .error .Unauthorized) ∧
      (∀ a : Nat, transferSuperAdmin st caller a = .error .Unauthorized) ∧
      isSuperAdmin st caller = false := by
  intro st caller h
  refine ⟨?_, ?_, ?_, ?_, ?_, ?_, ?_⟩
  · intro a nm ds ws r ts
    unfold registerInstitution
    rw [if_pos h]
  · intro a reason
    unfold revokeInstitution
    rw [if_pos h]
  · intro a
    unfold reactivateInstitution
    rw [if_pos h]
  · intro a r
    unfold updateInstitutionRole
    rw [if_pos h]
  · intro a b
    unfold setInstitutionStatus
    rw [if_pos h]
  · intro a
    unfold transferSuperAdmin
    rw [if_pos h]
  · simp [isSuperAdmin, h]

/-- C10, witness: in `govBad1`, address `2` is a registered institution
whose role is SUPER_ADMIN but which is not the pointer (`1` is): its
admin-gated calls fail `Unauthorized` and `isSuperAdmin` reports false. -/
theorem c10_witness :
    (2 : Nat) ≠ govBad1.superAdmin ∧
    (instOf govBad1 2).role = Role.SUPER_ADMIN ∧
    registerInstitution govBad1 2 4 "X" "" "" Role.ISSUER 7 =
      .error .Unauthorized ∧
    transferSuperAdmin govBad1 2 2 = .error .Unauthorized ∧
    isSuperAdmin govBad1 2 = false := by
  have h := c10_only_super_admin govBad1 2 (by decide)
  exact ⟨by decide, by decide, h.1 4 "X" "" "" Role.ISSUER 7,
    h.2.2.2.2.2.1 2, h.2.2.2.2.2.2⟩
